import Mathlib

/-!
# Verification of the PWA notification / install UI state machine (`app.js`)

Shallow embedding of the reconciliation core of `app.js`:

* `DeviceCapabilityProbe`: `isMobileDevice`, `isIOS`, `isAndroid`,
  `isAppInstalled`, `arePushNotificationsSupported` — pure reads of
  environment flags, modelled by the `Env` structure.
* `UIPresentationTable`: `updateUIStatus` — the switch that drives the
  badge classes, badge text, button label and button disabled flag.
* `NotificationStateController`: `checkAndUpdateStatus` (the poll /
  `evaluate()` path), `handleEnableNotifications` (the user-gesture
  activation path), and the passive `subscriptionChange` listener.
  The mutable page state is the `AppState` structure: the sticky
  `isSubscriptionConfirmed` flag, the DOM presentation, and (as a ghost
  field) the last status string passed to `updateUIStatus`.
* `InstallFlowController`: `handleInstallClick`, the
  `beforeinstallprompt` and `appinstalled` listeners, and
  `showInstallCardOnMobile`.

Asynchronous SDK interactions are modelled by passing the results of the
awaited SDK calls (or the fact that they rejected, with the error
message) as explicit inputs to each handler.
-/

namespace PwaApp

/-- Environment flags inspected by the capability probes of `app.js`.
Each field is the boolean outcome of one concrete environment test. -/
structure Env where
  /-- `'Notification' in window` -/
  hasNotification : Bool
  /-- `'serviceWorker' in navigator` -/
  hasServiceWorker : Bool
  /-- `'PushManager' in window` -/
  hasPushManager : Bool
  /-- the user agent matches `/iPhone|iPad|iPod/i` -/
  uaIOS : Bool
  /-- `navigator.platform === 'MacIntel' && navigator.maxTouchPoints > 1` -/
  macIntelMultiTouch : Bool
  /-- the user agent matches `/Android/i` -/
  uaAndroid : Bool
  /-- the user agent matches the mobile-token regex of `isMobileDevice` -/
  uaMobileMatch : Bool
  /-- `window.matchMedia('(display-mode: standalone)').matches` -/
  displayModeStandalone : Bool
  /-- `window.navigator.standalone === true` -/
  navigatorStandalone : Bool
deriving DecidableEq, Repr

/-- `isMobileDevice()` of `app.js`. -/
def isMobileDevice (e : Env) : Bool := e.uaMobileMatch

/-- `isIOS()` of `app.js`. -/
def isIOS (e : Env) : Bool := e.uaIOS || e.macIntelMultiTouch

/-- `isAndroid()` of `app.js`. -/
def isAndroid (e : Env) : Bool := e.uaAndroid

/-- `isAppInstalled()` of `app.js` (the spec calls this `isStandalone`). -/
def isAppInstalled (e : Env) : Bool := e.displayModeStandalone || e.navigatorStandalone

/-- `arePushNotificationsSupported()` of `app.js` (the spec calls this
`supportsPush`). -/
def arePushNotificationsSupported (e : Env) : Bool :=
  if !e.hasNotification || !e.hasServiceWorker then false
  else if isIOS e && !isAppInstalled e then false
  else true

/-- The DOM state touched by `updateUIStatus`: the four mutually managed
badge classes of `#notification-status`, the badge text, and the disabled
flag and `span` label of `#btn-enable-notifications`. -/
structure UIState where
  badgeSuccess : Bool
  badgeWarning : Bool
  badgeError : Bool
  badgeHidden : Bool
  statusText : String
  btnDisabled : Bool
  btnLabel : String
deriving DecidableEq, Repr

/-- `updateUIStatus(status)` of `app.js`: remove the four badge classes,
then switch on the status string; unknown statuses hit the `default`
branch. -/
def updateUIStatus (status : String) (ui : UIState) : UIState :=
  let cleared : UIState :=
    { ui with badgeSuccess := false, badgeWarning := false,
              badgeError := false, badgeHidden := false }
  if status = "subscribed" then
    { cleared with badgeSuccess := true, statusText := "Notifiche attive",
                   btnDisabled := true, btnLabel := "Notifiche Attive" }
  else if status = "denied" then
    { cleared with badgeError := true, statusText := "Notifiche bloccate nel browser",
                   btnDisabled := true, btnLabel := "Notifiche Bloccate" }
  else if status = "error" then
    { cleared with badgeWarning := true, statusText := "Errore - Ricarica la pagina",
                   btnDisabled := false }
  else if status = "domain-error" then
    { cleared with badgeError := true, statusText := "Dominio non configurato su OneSignal",
                   btnDisabled := false }
  else if status = "ios-install-required" then
    { cleared with badgeWarning := true, statusText := "Installa prima l\x27app sulla Home",
                   btnDisabled := true, btnLabel := "Installa App per Notifiche" }
  else if status = "not-supported" then
    { cleared with badgeError := true, statusText := "Notifiche non supportate",
                   btnDisabled := true, btnLabel := "Non Supportato" }
  else if status = "unsubscribed" then
    { cleared with badgeWarning := true, statusText := "Notifiche disattivate",
                   btnDisabled := false, btnLabel := "Riattiva Notifiche" }
  else
    { cleared with badgeHidden := true, btnDisabled := false, btnLabel := "Attiva Notifiche" }

/-- The four badge styles of the presentation table. -/
inductive BadgeStyle where
  | success
  | warning
  | error
  | hidden
deriving DecidableEq, Repr

/-- One row of the presentation table, in the shape the spec describes:
badge style, badge text, button label, button disabled flag.  A `none`
text or label records that the corresponding `updateUIStatus` branch
leaves that DOM field unchanged. -/
structure PresentationEntry where
  badge : BadgeStyle
  text : Option String
  label : Option String
  disabled : Bool
deriving DecidableEq, Repr

/-- The presentation table of `updateUIStatus`, read off branch by branch
from the switch in `app.js`; any unlisted status maps to the final
(`default`) entry. -/
def presentationEntry (status : String) : PresentationEntry :=
  if status = "subscribed" then
    ⟨.success, some "Notifiche attive", some "Notifiche Attive", true⟩
  else if status = "denied" then
    ⟨.error, some "Notifiche bloccate nel browser", some "Notifiche Bloccate", true⟩
  else if status = "error" then
    ⟨.warning, some "Errore - Ricarica la pagina", none, false⟩
  else if status = "domain-error" then
    ⟨.error, some "Dominio non configurato su OneSignal", none, false⟩
  else if status = "ios-install-required" then
    ⟨.warning, some "Installa prima l\x27app sulla Home", some "Installa App per Notifiche", true⟩
  else if status = "not-supported" then
    ⟨.error, some "Notifiche non supportate", some "Non Supportato", true⟩
  else if status = "unsubscribed" then
    ⟨.warning, some "Notifiche disattivate", some "Riattiva Notifiche", false⟩
  else
    ⟨.hidden, none, some "Attiva Notifiche", false⟩

/-- Apply a presentation entry to the DOM: exactly the entry's badge class
is set; text and label are overwritten when the entry provides them and
kept otherwise; the disabled flag is always overwritten. -/
def applyEntry (e : PresentationEntry) (ui : UIState) : UIState :=
  { badgeSuccess := e.badge == .success
    badgeWarning := e.badge == .warning
    badgeError := e.badge == .error
    badgeHidden := e.badge == .hidden
    statusText := e.text.getD ui.statusText
    btnDisabled := e.disabled
    btnLabel := e.label.getD ui.btnLabel }

/-- Number of active badge classes among the four managed ones. -/
def activeBadgeCount (ui : UIState) : Nat :=
  (cond ui.badgeSuccess 1 0) + (cond ui.badgeWarning 1 0) +
    (cond ui.badgeError 1 0) + (cond ui.badgeHidden 1 0)

/-- The mutable notification-controller state of `app.js`: the sticky
`isSubscriptionConfirmed` flag, the DOM presentation, and — as a ghost
field for stating the claims — the last status string passed to
`updateUIStatus` (`none` before the first render). -/
structure AppState where
  /-- `isSubscriptionConfirmed` -/
  confirmed : Bool
  ui : UIState
  /-- ghost: argument of the most recent `updateUIStatus` call -/
  lastRendered : Option String
deriving DecidableEq, Repr

/-- A call `updateUIStatus(status)` performed by a controller, recorded
together with the ghost `lastRendered` field. -/
def render (status : String) (s : AppState) : AppState :=
  { s with ui := updateUIStatus status s.ui, lastRendered := some status }

/-- The three values read from the SDK by `checkAndUpdateStatus`:
`isPushNotificationsEnabled()`, `getNotificationPermission()` (a string,
one of "granted" / "denied" / "default"), `getUserId()` (a string or
null). -/
structure SdkReads where
  isPushEnabled : Bool
  permission : String
  userId : Option String
deriving DecidableEq, Repr

/-- Outcome of the three awaited SDK queries inside the `try` block of
`checkAndUpdateStatus`: either all resolve, or one of them rejects and
control jumps to the `catch` block. -/
inductive SdkOutcome where
  | ok (reads : SdkReads)
  | err
deriving DecidableEq, Repr

/-- JavaScript truthiness of the possibly-null `userId` string. -/
def truthy : Option String → Bool
  | none => false
  | some s => !(s == "")

/-- `checkAndUpdateStatus()` of `app.js` (the spec's `evaluate()`),
returning the new state and the returned boolean. -/
def checkAndUpdateStatus (env : Env) (sdk : SdkOutcome) (s : AppState) :
    AppState × Bool :=
  if !arePushNotificationsSupported env then
    if isIOS env && !isAppInstalled env then (render "ios-install-required" s, false)
    else (render "not-supported" s, false)
  else
    match sdk with
    | SdkOutcome.ok r =>
        if r.isPushEnabled || (r.permission == "granted" && truthy r.userId) then
          (render "subscribed" { s with confirmed := true }, r.isPushEnabled)
        else if r.permission == "denied" then
          (render "denied" s, r.isPushEnabled)
        else if !s.confirmed then
          (render "default" s, r.isPushEnabled)
        else
          (s, r.isPushEnabled)
    | SdkOutcome.err =>
        if isIOS env && !isAppInstalled env then (render "ios-install-required" s, false)
        else if !s.confirmed then (render "error" s, false)
        else (s, false)

/-- `hay.includes(pat)` on exploded strings, by structural recursion on
the haystack. -/
def charsContain (pat : List Char) : List Char → Bool
  | [] => pat.isEmpty
  | c :: t => pat.isPrefixOf (c :: t) || charsContain pat t

/-- `errorMessage.includes(pattern)` of `app.js`. -/
def strContains (hay pat : String) : Bool :=
  charsContain pat.toList hay.toList

/-- Inputs of one `handleEnableNotifications()` run, covering every await
inside its `try` block: `regThrows` is `some msg` when
`registerForPushNotifications()` or the permission re-read rejects with
message `msg` (before any state mutation); otherwise `permission` is the
re-read permission string; `userIdThrows` is `some msg` when the
follow-up `getUserId()` in the granted branch rejects; otherwise
`userId` is its (only logged) result. -/
structure EnableInputs where
  regThrows : Option String
  permission : String
  userIdThrows : Option String
  userId : Option String
deriving DecidableEq, Repr

/-- The `catch` block of `handleEnableNotifications()`: re-enable the
button, restore its label, then classify the error message. -/
def handleEnableError (env : Env) (msg : String) (s : AppState) : AppState :=
  let s1 : AppState :=
    { s with ui := { s.ui with btnDisabled := false, btnLabel := "Attiva Notifiche" } }
  if strContains msg "can only be used on" then render "domain-error" s1
  else if isIOS env && !isAppInstalled env then render "ios-install-required" s1
  else render "error" s1

/-- `handleEnableNotifications()` of `app.js` (the spec's
`activateSubscription()`). -/
def handleEnableNotifications (env : Env) (inp : EnableInputs) (s : AppState) :
    AppState :=
  if !arePushNotificationsSupported env then
    if isIOS env && !isAppInstalled env then render "ios-install-required" s
    else render "not-supported" s
  else
    let s1 : AppState :=
      { s with ui := { s.ui with btnDisabled := true, btnLabel := "Attivazione..." } }
    match inp.regThrows with
    | some msg => handleEnableError env msg s1
    | none =>
        if inp.permission == "granted" then
          let s2 := render "subscribed" { s1 with confirmed := true }
          match inp.userIdThrows with
          | some msg => handleEnableError env msg s2
          | none => s2
        else if inp.permission == "denied" then render "denied" s1
        else
          { s1 with ui := { s1.ui with btnDisabled := false, btnLabel := "Attiva Notifiche" } }

/-- The `OneSignal.on('subscriptionChange', ...)` listener of `app.js`:
on a positive report it confirms and renders `subscribed`; on a negative
report it deliberately does nothing. -/
def onSubscriptionChange (isSubscribed : Bool) (s : AppState) : AppState :=
  if isSubscribed then render "subscribed" { s with confirmed := true } else s

/-- `checkBrowserSupport()` of `app.js` (startup capability gating),
returning the new state and the returned boolean. -/
def checkBrowserSupport (env : Env) (s : AppState) : AppState × Bool :=
  if !env.hasServiceWorker then (render "error" s, false)
  else if !env.hasPushManager || !env.hasNotification then (render "error" s, false)
  else (s, true)

/-- One reconciliation step of the notification controller: a completed
`checkAndUpdateStatus()` run, a completed `handleEnableNotifications()`
run, or one `subscriptionChange` callback. -/
inductive Step where
  | evaluate (env : Env) (sdk : SdkOutcome)
  | enable (env : Env) (inp : EnableInputs)
  | subChange (isSubscribed : Bool)
deriving DecidableEq, Repr

/-- Effect of one reconciliation step on the controller state. -/
def applyStep : Step → AppState → AppState
  | Step.evaluate env sdk, s => (checkAndUpdateStatus env sdk s).1
  | Step.enable env inp, s => handleEnableNotifications env inp s
  | Step.subChange b, s => onSubscriptionChange b s

/-- A sequence of completed `checkAndUpdateStatus()` runs against a fixed
environment, each consuming its own SDK reads. -/
def evalSeq (env : Env) (rs : List SdkReads) (s : AppState) : AppState :=
  rs.foldl (fun t r => (checkAndUpdateStatus env (SdkOutcome.ok r) t).1) s

/-- A step observes affirmative subscription evidence when it takes the
branch of its handler that executes `isSubscriptionConfirmed = true`
followed directly by `updateUIStatus('subscribed')` and no later render:
a successful evaluation reading push-enabled, or permission granted with
a truthy user id; an activation whose permission re-read is granted and
whose follow-up id read does not throw; a positive subscription-change
callback. -/
def affirmativeStep : Step → Bool
  | Step.evaluate env (SdkOutcome.ok r) =>
      arePushNotificationsSupported env &&
        (r.isPushEnabled || (r.permission == "granted" && truthy r.userId))
  | Step.evaluate _ SdkOutcome.err => false
  | Step.enable env inp =>
      arePushNotificationsSupported env && inp.regThrows.isNone &&
        (inp.permission == "granted") && inp.userIdThrows.isNone
  | Step.subChange b => b

/-- The install-flow state of `app.js`: whether `deferredInstallPrompt`
currently holds a capability, the `hidden` class of `#install-card`, the
`span` label of `#btn-install`, and whether `btnInstall.onclick` is
currently wired to `showManualInstallInstructions` (it is wired to
`handleInstallClick` or unset otherwise). -/
structure InstallState where
  deferredInstallPrompt : Bool
  installCardHidden : Bool
  btnInstallLabel : String
  manualWired : Bool
deriving DecidableEq, Repr

/-- Outcome of the native install prompt interaction inside
`handleInstallClick`: the awaited `userChoice` resolves `accepted` or
`dismissed`, or `prompt()` / the `userChoice` await throws. -/
inductive PromptOutcome where
  | accepted
  | dismissed
  | throws
deriving DecidableEq, Repr

/-- Observable result of one `handleInstallClick()` run: the new install
state, whether `deferredInstallPrompt.prompt()` was invoked, and whether
the run showed the manual install instructions. -/
structure InstallClickResult where
  state : InstallState
  promptInvoked : Bool
  instructionsShown : Bool
deriving DecidableEq, Repr

/-- Which alert text `showManualInstallInstructions()` picks. -/
inductive InstallInstructions where
  | iosSteps
  | androidSteps
  | genericSteps
deriving DecidableEq, Repr

/-- `showManualInstallInstructions()` of `app.js`. -/
def showManualInstallInstructions (e : Env) : InstallInstructions :=
  if isIOS e then InstallInstructions.iosSteps
  else if isAndroid e then InstallInstructions.androidSteps
  else InstallInstructions.genericSteps

/-- `handleInstallClick()` of `app.js` (the spec's `activateInstall()`).
With no stored prompt it logs and returns; otherwise it invokes
`prompt()`, awaits `userChoice`, then clears the prompt and hides the
card — unless the invocation or the await throws, in which case the
`catch` block only logs. -/
def handleInstallClick (outcome : PromptOutcome) (st : InstallState) :
    InstallClickResult :=
  if !st.deferredInstallPrompt then ⟨st, false, false⟩
  else
    match outcome with
    | PromptOutcome.accepted =>
        ⟨{ st with deferredInstallPrompt := false, installCardHidden := true },
          true, false⟩
    | PromptOutcome.dismissed =>
        ⟨{ st with deferredInstallPrompt := false, installCardHidden := true },
          true, false⟩
    | PromptOutcome.throws => ⟨st, true, false⟩

/-- The `beforeinstallprompt` listener of `app.js` (the spec's
`onInstallAvailable`). -/
def onBeforeInstallPrompt (st : InstallState) : InstallState :=
  { st with deferredInstallPrompt := true, installCardHidden := false,
            btnInstallLabel := "Installa sulla Home", manualWired := false }

/-- The `appinstalled` listener of `app.js` (the spec's
`onInstallCompleted`). -/
def onAppInstalled (st : InstallState) : InstallState :=
  { st with installCardHidden := true, deferredInstallPrompt := false }

/-- `showInstallCardOnMobile()` of `app.js` (the spec's
`setupInitialAffordance`). -/
def showInstallCardOnMobile (e : Env) (st : InstallState) : InstallState :=
  if isAppInstalled e then { st with installCardHidden := true }
  else if isMobileDevice e then
    let st1 : InstallState := { st with installCardHidden := false }
    if !st1.deferredInstallPrompt then
      { st1 with
        btnInstallLabel := if isIOS e then "Aggiungi a Home" else "Installa App",
        manualWired := true }
    else st1
  else st

/-! ## Concrete fixtures used by counterexamples and witnesses -/

/-- A desktop environment with every base capability present. -/
def envDesktop : Env := ⟨true, true, true, false, false, false, false, false, false⟩

/-- An iPhone browsing in Safari: iOS user agent, not standalone. -/
def envIOSBrowser : Env := ⟨true, true, true, true, false, false, true, false, false⟩

/-- A desktop environment whose `serviceWorker` capability is absent. -/
def envNoSW : Env := ⟨true, false, true, false, false, false, false, false, false⟩

/-- A desktop environment with `PushManager` absent but `Notification`
and `serviceWorker` present. -/
def envNoPM : Env := ⟨true, true, false, false, false, false, false, false, false⟩

/-- Fresh-page UI: hidden badge, empty text, enabled button. -/
def uiInit : UIState := ⟨false, false, false, true, "", false, "Attiva Notifiche"⟩

/-- Fresh-page controller state. -/
def sInit : AppState := ⟨false, uiInit, none⟩

/-- State of a confirmed subscriber: the flag is set and `subscribed` was
just rendered. -/
def sConfirmed : AppState := ⟨true, updateUIStatus "subscribed" uiInit, some "subscribed"⟩

/-- SDK reads of a user who revoked permission in browser settings after
confirming: nothing enabled, permission denied, no id. -/
def readsDenied : SdkReads := ⟨false, "denied", none⟩

/-- Indeterminate SDK reads: nothing enabled, permission still
`default`, no id. -/
def readsIndet : SdkReads := ⟨false, "default", none⟩

/-- Affirmative SDK reads: push enabled with a granted permission and an
id. -/
def readsOn : SdkReads := ⟨true, "granted", some "uid-1"⟩

/-- Install state right after `beforeinstallprompt` fired: capability
stored, card visible, native wiring. -/
def stPrompt : InstallState := ⟨true, false, "Installa sulla Home", false⟩

/-! ## Helper lemmas -/

theorem updateUIStatus_eq_applyEntry (status : String) (ui : UIState) :
    updateUIStatus status ui = applyEntry (presentationEntry status) ui := by
  unfold updateUIStatus presentationEntry applyEntry
  repeat' split
  all_goals rfl

theorem applyEntry_badgeCount (e : PresentationEntry) (ui : UIState) :
    activeBadgeCount (applyEntry e ui) = 1 := by
  obtain ⟨b, t, l, d⟩ := e
  cases b <;> rfl

theorem supported_no_ios_gate (e : Env)
    (h : arePushNotificationsSupported e = true) :
    (isIOS e && !isAppInstalled e) = false := by
  cases hb : (isIOS e && !isAppInstalled e) with
  | false => rfl
  | true =>
      exfalso
      unfold arePushNotificationsSupported at h
      rw [hb] at h
      simp at h

/-! ## Claim theorems -/

/-- C8 counterexample: `updateUIStatus('error')` does not set the button
label — the final label depends on the pre-call DOM state, so it is not
given by the entry of the status being rendered. -/
theorem C8_counterexample :
    (updateUIStatus "error" (updateUIStatus "subscribed" uiInit)).btnLabel
        = "Notifiche Attive" ∧
    (updateUIStatus "error" (updateUIStatus "unsubscribed" uiInit)).btnLabel
        = "Riattiva Notifiche" ∧
    (updateUIStatus "error" (updateUIStatus "subscribed" uiInit)).btnLabel ≠
      (updateUIStatus "error" (updateUIStatus "unsubscribed" uiInit)).btnLabel := by
  decide

/-- C8 (amended): every `updateUIStatus` call equals the application of
that status's presentation entry (unknown statuses falling back to the
`default` entry), where the `error` and `domain-error` entries leave the
button label unchanged and the `default` entry leaves the badge text
unchanged; and afterwards exactly one of the four badge classes is
active. -/
theorem C8_render_follows_table (status : String) (ui : UIState) :
    updateUIStatus status ui = applyEntry (presentationEntry status) ui ∧
    activeBadgeCount (updateUIStatus status ui) = 1 := by
  refine ⟨updateUIStatus_eq_applyEntry status ui, ?_⟩
  rw [updateUIStatus_eq_applyEntry]
  exact applyEntry_badgeCount _ _

/-- C9: `updateUIStatus` is idempotent — rendering the same status twice
in a row from any starting DOM state ends in the same DOM state as
rendering it once. -/
theorem C9_render_idempotent (status : String) (ui : UIState) :
    updateUIStatus status (updateUIStatus status ui) = updateUIStatus status ui := by
  rw [updateUIStatus_eq_applyEntry status (updateUIStatus status ui),
    updateUIStatus_eq_applyEntry status ui]
  obtain ⟨b, t, l, d⟩ := presentationEntry status
  cases t <;> cases l <;> rfl

/-- C3: on iOS outside standalone mode, `arePushNotificationsSupported`
is false whatever the base capabilities are, and both
`checkAndUpdateStatus` and `handleEnableNotifications` render
`ios-install-required` (so never `not-supported` or `error`). -/
theorem C3_ios_gating (env : Env) (sdk : SdkOutcome) (inp : EnableInputs)
    (s : AppState) (hIOS : isIOS env = true) (hNS : isAppInstalled env = false) :
    arePushNotificationsSupported env = false ∧
    (checkAndUpdateStatus env sdk s).1.lastRendered = some "ios-install-required" ∧
    (handleEnableNotifications env inp s).lastRendered = some "ios-install-required" := by
  have hsup : arePushNotificationsSupported env = false := by
    unfold arePushNotificationsSupported
    rw [hIOS, hNS]
    simp
  refine ⟨hsup, ?_, ?_⟩
  · simp [checkAndUpdateStatus, hsup, hIOS, hNS, render]
  · simp [handleEnableNotifications, hsup, hIOS, hNS, render]

/-- C3 witness: iPhone Safari with all base capabilities present. -/
theorem C3_witness :
    arePushNotificationsSupported envIOSBrowser = false ∧
    (checkAndUpdateStatus envIOSBrowser SdkOutcome.err sInit).1.lastRendered
        = some "ios-install-required" ∧
    (handleEnableNotifications envIOSBrowser ⟨none, "default", none, none⟩
        sInit).lastRendered = some "ios-install-required" :=
  C3_ios_gating envIOSBrowser SdkOutcome.err ⟨none, "default", none, none⟩ sInit
    (by decide) (by decide)

/-- C5 counterexample: with `serviceWorker` absent, the startup gating
`checkBrowserSupport` renders `error`, not `not-supported`. -/
theorem C5_counterexample :
    (checkBrowserSupport envNoSW sInit).1.lastRendered = some "error" ∧
    (checkBrowserSupport envNoSW sInit).1.lastRendered ≠ some "not-supported" := by
  decide

/-- C5 (amended): when `Notification` or `serviceWorker` is absent,
`checkAndUpdateStatus` renders `not-supported` with the button disabled
(unless the iOS gate applies); the startup gating `checkBrowserSupport`,
however, renders `error` (button re-enabled) whenever `serviceWorker`,
`PushManager` or `Notification` is absent, and `PushManager` absence
alone is not checked by `checkAndUpdateStatus` at all. -/
theorem C5_capability_absent :
    (∀ env sdk s, env.hasNotification = false ∨ env.hasServiceWorker = false →
      (isIOS env && !isAppInstalled env) = false →
      (checkAndUpdateStatus env sdk s).1.lastRendered = some "not-supported" ∧
      (checkAndUpdateStatus env sdk s).1.ui.btnDisabled = true) ∧
    (∀ env s, env.hasServiceWorker = false ∨ env.hasPushManager = false ∨
        env.hasNotification = false →
      (checkBrowserSupport env s).1.lastRendered = some "error" ∧
      (checkBrowserSupport env s).1.ui.btnDisabled = false) ∧
    arePushNotificationsSupported envNoPM = true := by
  refine ⟨?_, ?_, ?_⟩
  · intro env sdk s hbase hios
    have hsup : arePushNotificationsSupported env = false := by
      unfold arePushNotificationsSupported
      rcases hbase with h | h <;> simp [h]
    constructor
    · simp [checkAndUpdateStatus, hsup, hios, render]
    · simp [checkAndUpdateStatus, hsup, hios, render,
        updateUIStatus_eq_applyEntry, applyEntry, presentationEntry]
  · intro env s h
    by_cases hsw : env.hasServiceWorker
    · have h2 : env.hasPushManager = false ∨ env.hasNotification = false := by
        rcases h with h | h | h
        · exact absurd hsw (by simp [h])
        · exact Or.inl h
        · exact Or.inr h
      constructor
      · unfold checkBrowserSupport
        rcases h2 with h2 | h2 <;> simp [hsw, h2, render]
      · unfold checkBrowserSupport
        rcases h2 with h2 | h2 <;>
          simp [hsw, h2, render, updateUIStatus_eq_applyEntry, applyEntry,
            presentationEntry]
    · have hsw' : env.hasServiceWorker = false := by simpa using hsw
      constructor
      · simp [checkBrowserSupport, hsw', render]
      · simp [checkBrowserSupport, hsw', render, updateUIStatus_eq_applyEntry,
          applyEntry, presentationEntry]
  · decide

/-- C5 witness: `serviceWorker` absent makes `checkAndUpdateStatus`
render `not-supported`, while `PushManager` absent makes the startup
gating render `error`. -/
theorem C5_witness :
    (checkAndUpdateStatus envNoSW SdkOutcome.err sInit).1.lastRendered
        = some "not-supported" ∧
    (checkBrowserSupport envNoPM sInit).1.lastRendered = some "error" :=
  ⟨(C5_capability_absent.1 envNoSW SdkOutcome.err sInit (Or.inr rfl) (by decide)).1,
   (C5_capability_absent.2.1 envNoPM sInit (Or.inr (Or.inl rfl))).1⟩

/-- C6 counterexample: after a first `handleInstallClick` consumed the
stored prompt, a second click neither re-invokes the prompt nor shows
the manual install instructions — it does nothing, contradicting the
claimed fallback to manual instructions. -/
theorem C6_counterexample :
    (handleInstallClick PromptOutcome.accepted stPrompt).state.deferredInstallPrompt
        = false ∧
    (handleInstallClick PromptOutcome.dismissed
        (handleInstallClick PromptOutcome.accepted stPrompt).state).promptInvoked
        = false ∧
    (handleInstallClick PromptOutcome.dismissed
        (handleInstallClick PromptOutcome.accepted stPrompt).state).instructionsShown
        = false := by
  decide

/-- C6 (amended): after a completed `handleInstallClick` run that
consumed the stored prompt, a second run with no intervening
`beforeinstallprompt` never re-invokes the consumed capability — but it
also shows no manual instructions and changes nothing: it returns
immediately.  Manual instructions are wired only at startup by
`showInstallCardOnMobile` when no prompt was captured. -/
theorem C6_second_click_noop (st : InstallState) (o1 o2 : PromptOutcome)
    (hp : st.deferredInstallPrompt = true) (h1 : o1 ≠ PromptOutcome.throws) :
    (handleInstallClick o2 (handleInstallClick o1 st).state).promptInvoked = false ∧
    (handleInstallClick o2 (handleInstallClick o1 st).state).instructionsShown = false ∧
    (handleInstallClick o2 (handleInstallClick o1 st).state).state =
      (handleInstallClick o1 st).state := by
  cases o1 <;> simp_all [handleInstallClick]

/-- C6 witness: prompt consumed by an accepted first click, second click
is a no-op. -/
theorem C6_witness :
    (handleInstallClick PromptOutcome.accepted
        (handleInstallClick PromptOutcome.accepted stPrompt).state).promptInvoked
        = false ∧
    (handleInstallClick PromptOutcome.accepted
        (handleInstallClick PromptOutcome.accepted stPrompt).state).instructionsShown
        = false ∧
    (handleInstallClick PromptOutcome.accepted
        (handleInstallClick PromptOutcome.accepted stPrompt).state).state =
      (handleInstallClick PromptOutcome.accepted stPrompt).state :=
  C6_second_click_noop stPrompt PromptOutcome.accepted PromptOutcome.accepted
    rfl (by decide)

/-- C7 counterexample: when `prompt()` / the `userChoice` await throws,
the `catch` block of `handleInstallClick` only logs: the prompt was
invoked, yet `deferredInstallPrompt` is NOT cleared, contradicting the
claimed clearing in every case. -/
theorem C7_counterexample :
    (handleInstallClick PromptOutcome.throws stPrompt).promptInvoked = true ∧
    (handleInstallClick PromptOutcome.throws stPrompt).state.deferredInstallPrompt
        = true := by
  decide

/-- C7 (amended): when the stored prompt is invoked and its one-shot
outcome wait completes (accepted or dismissed — so in particular when
accepted), the install card is hidden and `deferredInstallPrompt` is
cleared; but when the invocation or the wait throws, nothing is cleared
and the state is left unchanged. -/
theorem C7_prompt_consumption (st : InstallState) (o : PromptOutcome)
    (hp : st.deferredInstallPrompt = true) :
    (o ≠ PromptOutcome.throws →
      (handleInstallClick o st).state.deferredInstallPrompt = false ∧
      (handleInstallClick o st).state.installCardHidden = true) ∧
    (o = PromptOutcome.throws → (handleInstallClick o st).state = st) := by
  cases o <;> simp_all [handleInstallClick]

/-- C7 witness: an accepted outcome clears the prompt and hides the
card. -/
theorem C7_witness :
    (handleInstallClick PromptOutcome.accepted stPrompt).state.deferredInstallPrompt
        = false ∧
    (handleInstallClick PromptOutcome.accepted stPrompt).state.installCardHidden
        = true :=
  (C7_prompt_consumption stPrompt PromptOutcome.accepted rfl).1 (by decide)

/-- C1 counterexample: a confirmed subscriber whose next
`checkAndUpdateStatus` run reads a revoked (`denied`) permission ends
the step with `confirmed = true` but rendered status `denied`, so the
invariant `confirmed == true ⇒ Status == subscribed` does not hold after
every reconciliation step. -/
theorem C1_counterexample :
    (applyStep (Step.evaluate envDesktop (SdkOutcome.ok readsDenied))
        sConfirmed).confirmed = true ∧
    (applyStep (Step.evaluate envDesktop (SdkOutcome.ok readsDenied))
        sConfirmed).lastRendered = some "denied" ∧
    (applyStep (Step.evaluate envDesktop (SdkOutcome.ok readsDenied))
        sConfirmed).lastRendered ≠ some "subscribed" := by
  decide

/-- C1 (amended): immediately after every reconciliation step that
observes affirmative subscription evidence — the only steps that set the
confirmed flag — the flag is true and the rendered status is
`subscribed`.  After other steps (a `denied` read, an unsupported
environment, an SDK failure) `confirmed = true` does not force the
rendered status to be `subscribed`. -/
theorem C1_affirmative_step_renders_subscribed (st : Step) (s : AppState)
    (h : affirmativeStep st = true) :
    (applyStep st s).confirmed = true ∧
    (applyStep st s).lastRendered = some "subscribed" := by
  cases st with
  | evaluate env sdk =>
      cases sdk with
      | ok r =>
          simp only [affirmativeStep, Bool.and_eq_true] at h
          obtain ⟨hsup, hcond⟩ := h
          simp [applyStep, checkAndUpdateStatus, hsup, hcond, render]
      | err => simp [affirmativeStep] at h
  | enable env inp =>
      simp only [affirmativeStep, Bool.and_eq_true, Option.isNone_iff_eq_none,
        beq_iff_eq] at h
      obtain ⟨⟨⟨hsup, hreg⟩, hperm⟩, huid⟩ := h
      simp [applyStep, handleEnableNotifications, hsup, hreg, hperm, huid, render]
  | subChange b =>
      simp only [affirmativeStep] at h
      subst h
      simp [applyStep, onSubscriptionChange, render]

/-- C1 witness: a successful evaluation with affirmative reads confirms
and renders `subscribed`. -/
theorem C1_witness :
    (applyStep (Step.evaluate envDesktop (SdkOutcome.ok readsOn)) sInit).confirmed
        = true ∧
    (applyStep (Step.evaluate envDesktop (SdkOutcome.ok readsOn)) sInit).lastRendered
        = some "subscribed" :=
  C1_affirmative_step_renders_subscribed
    (Step.evaluate envDesktop (SdkOutcome.ok readsOn)) sInit (by decide)

/-- C2 counterexample: the reads `(pushEnabled = false, permission =
'denied', no id)` are negative reads with permission not `granted`, yet
one `checkAndUpdateStatus` run on them moves a confirmed subscriber's
status from `subscribed` to `denied` — no unsubscribe event involved. -/
theorem C2_counterexample :
    sConfirmed.confirmed = true ∧
    sConfirmed.lastRendered = some "subscribed" ∧
    (evalSeq envDesktop [readsDenied] sConfirmed).lastRendered = some "denied" := by
  decide

/-- C2 (amended): once confirmed with rendered status `subscribed`, any
sequence of successful `checkAndUpdateStatus` runs in a supported
environment whose reads are indeterminate — push-enabled false,
subscriber id absent, and permission neither `granted` nor `denied` —
leaves the whole state (hence the `subscribed` status) unchanged.  A
`denied` permission read, however, does change the status, as does an
evaluation in an unsupported environment. -/
theorem C2_indeterminate_reads_preserve_subscribed (env : Env)
    (rs : List SdkReads) (s : AppState)
    (hsup : arePushNotificationsSupported env = true)
    (hconf : s.confirmed = true)
    (hsub : s.lastRendered = some "subscribed")
    (hreads : ∀ r ∈ rs, r.isPushEnabled = false ∧ r.permission ≠ "granted" ∧
      r.permission ≠ "denied" ∧ r.userId = none) :
    evalSeq env rs s = s ∧ (evalSeq env rs s).lastRendered = some "subscribed" := by
  have step : ∀ r, r.isPushEnabled = false → r.permission ≠ "granted" →
      r.permission ≠ "denied" →
      (checkAndUpdateStatus env (SdkOutcome.ok r) s).1 = s := by
    intro r h1 h2 h3
    simp [checkAndUpdateStatus, hsup, hconf, h1, h2, h3, beq_iff_eq]
  have main : evalSeq env rs s = s := by
    induction rs with
    | nil => rfl
    | cons r rest ih =>
        have hr := hreads r (List.mem_cons_self r rest)
        have hrest : ∀ r2 ∈ rest, r2.isPushEnabled = false ∧
            r2.permission ≠ "granted" ∧ r2.permission ≠ "denied" ∧
            r2.userId = none := by
          intro r2 hm
          exact hreads r2 (List.mem_cons_of_mem r hm)
        have hfirst : (checkAndUpdateStatus env (SdkOutcome.ok r) s).1 = s :=
          step r hr.1 hr.2.1 hr.2.2.1
        calc evalSeq env (r :: rest) s
            = evalSeq env rest (checkAndUpdateStatus env (SdkOutcome.ok r) s).1 := rfl
          _ = evalSeq env rest s := by rw [hfirst]
          _ = s := ih hrest
  exact ⟨main, by rw [main, hsub]⟩

/-- C2 witness: two consecutive indeterminate evaluations leave a
confirmed `subscribed` state untouched. -/
theorem C2_witness :
    evalSeq envDesktop [readsIndet, readsIndet] sConfirmed = sConfirmed ∧
    (evalSeq envDesktop [readsIndet, readsIndet] sConfirmed).lastRendered
        = some "subscribed" :=
  C2_indeterminate_reads_preserve_subscribed envDesktop [readsIndet, readsIndet]
    sConfirmed (by decide) (by decide) (by decide) (by decide)

/-- C4 counterexample: in a supported environment, a run whose
permission re-read is `granted` but whose follow-up `getUserId` read
rejects ends with the rendered status `error`, not `subscribed` (while
`confirmed` stays true), so the claimed granted-clause conclusion fails
even though the re-read permission was `granted`. -/
theorem C4_counterexample :
    (handleEnableNotifications envDesktop ⟨none, "granted", some "boom", none⟩
        sInit).lastRendered = some "error" ∧
    (handleEnableNotifications envDesktop ⟨none, "granted", some "boom", none⟩
        sInit).lastRendered ≠ some "subscribed" ∧
    (handleEnableNotifications envDesktop ⟨none, "granted", some "boom", none⟩
        sInit).confirmed = true := by
  decide

/-- C4 (amended): outcomes of `handleEnableNotifications` after the SDK
registration call, in a supported environment: a `granted` re-read whose
follow-up id read completes confirms and renders `subscribed`; a
`granted` re-read whose follow-up id read throws still sets
`confirmed = true` but ends in the error path — button re-enabled and
`domain-error` or `error` rendered, not `subscribed`; a `denied` re-read
renders `denied`; an indeterminate re-read only reverts the button to
the idle enabled `Attiva Notifiche` presentation, leaving everything
else (in particular the rendered status) unchanged; a registration call
that throws re-enables the button and renders `domain-error` when the
message contains the origin-not-authorized marker, else `error` (the
iOS branch being unreachable in a supported environment); and in every
case the button never keeps the in-progress `Attivazione...` label. -/
theorem C4_activation_outcomes (env : Env) (inp : EnableInputs) (s : AppState)
    (hsup : arePushNotificationsSupported env = true) :
    (inp.regThrows = none → inp.permission = "granted" → inp.userIdThrows = none →
      (handleEnableNotifications env inp s).confirmed = true ∧
      (handleEnableNotifications env inp s).lastRendered = some "subscribed") ∧
    (∀ msg, inp.regThrows = none → inp.permission = "granted" →
      inp.userIdThrows = some msg →
      (handleEnableNotifications env inp s).confirmed = true ∧
      (handleEnableNotifications env inp s).ui.btnDisabled = false ∧
      (strContains msg "can only be used on" = true →
        (handleEnableNotifications env inp s).lastRendered = some "domain-error") ∧
      (strContains msg "can only be used on" = false →
        (handleEnableNotifications env inp s).lastRendered = some "error")) ∧
    (inp.regThrows = none → inp.permission = "denied" →
      (handleEnableNotifications env inp s).lastRendered = some "denied" ∧
      (handleEnableNotifications env inp s).confirmed = s.confirmed) ∧
    (inp.regThrows = none → inp.permission ≠ "granted" → inp.permission ≠ "denied" →
      handleEnableNotifications env inp s =
        { s with ui := { s.ui with btnDisabled := false,
                                   btnLabel := "Attiva Notifiche" } }) ∧
    (∀ msg, inp.regThrows = some msg →
      (handleEnableNotifications env inp s).ui.btnDisabled = false ∧
      (strContains msg "can only be used on" = true →
        (handleEnableNotifications env inp s).lastRendered = some "domain-error") ∧
      (strContains msg "can only be used on" = false →
        (handleEnableNotifications env inp s).lastRendered = some "error")) ∧
    (handleEnableNotifications env inp s).ui.btnLabel ≠ "Attivazione..." := by
  have hgate := supported_no_ios_gate env hsup
  refine ⟨?_, ?_, ?_, ?_, ?_, ?_⟩
  · intro h1 h2 h3
    simp [handleEnableNotifications, hsup, h1, h2, h3, render]
  · intro msg h1 h2 h3
    by_cases hdom : strContains msg "can only be used on" <;>
      simp [handleEnableNotifications, handleEnableError, hsup, h1, h2, h3, hdom,
        hgate, render, updateUIStatus_eq_applyEntry, applyEntry, presentationEntry]
  · intro h1 h2
    simp [handleEnableNotifications, hsup, h1, h2, render]
  · intro h1 h2 h3
    simp [handleEnableNotifications, hsup, h1, h2, h3, beq_iff_eq]
  · intro msg h1
    by_cases hdom : strContains msg "can only be used on"
    · simp [handleEnableNotifications, handleEnableError, hsup, h1, hdom, render,
        updateUIStatus_eq_applyEntry, applyEntry, presentationEntry]
    · simp [handleEnableNotifications, handleEnableError, hsup, h1, hdom, hgate,
        render, updateUIStatus_eq_applyEntry, applyEntry, presentationEntry]
  · rcases h1 : inp.regThrows with _ | msg
    · by_cases h2 : inp.permission = "granted"
      · rcases h3 : inp.userIdThrows with _ | msg2
        · simp [handleEnableNotifications, hsup, h1, h2, h3, render,
            updateUIStatus_eq_applyEntry, applyEntry, presentationEntry]
        · by_cases hdom : strContains msg2 "can only be used on" <;>
            simp [handleEnableNotifications, handleEnableError, hsup, h1, h2, h3,
              hdom, hgate, render, updateUIStatus_eq_applyEntry, applyEntry,
              presentationEntry]
      · by_cases h3 : inp.permission = "denied" <;>
          simp [handleEnableNotifications, hsup, h1, h2, h3, beq_iff_eq, render,
            updateUIStatus_eq_applyEntry, applyEntry, presentationEntry]
    · by_cases hdom : strContains msg "can only be used on" <;>
        simp [handleEnableNotifications, handleEnableError, hsup, h1, hdom, hgate,
          render, updateUIStatus_eq_applyEntry, applyEntry, presentationEntry]

/-- C4 witness: a granted re-read on a fresh desktop state confirms and
renders `subscribed`. -/
theorem C4_witness :
    (handleEnableNotifications envDesktop ⟨none, "granted", none, some "uid-1"⟩
        sInit).confirmed = true ∧
    (handleEnableNotifications envDesktop ⟨none, "granted", none, some "uid-1"⟩
        sInit).lastRendered = some "subscribed" :=
  (C4_activation_outcomes envDesktop ⟨none, "granted", none, some "uid-1"⟩ sInit
    (by decide)).1 rfl rfl rfl

/-- C10: over every reconciliation step with arbitrary inputs, the
confirmed flag is monotone (never reset to false), no step ever renders
`unsubscribed` (the listener ignores negative reports, so that
presentation entry is unreachable), and no step performed on a confirmed
state renders the unconfirmed `default` display. -/
theorem C10_confirmed_monotone_unsubscribed_unreachable (st : Step) (s : AppState) :
    (s.confirmed = true → (applyStep st s).confirmed = true) ∧
    (s.lastRendered ≠ some "unsubscribed" →
      (applyStep st s).lastRendered ≠ some "unsubscribed") ∧
    (s.confirmed = true → s.lastRendered ≠ some "default" →
      (applyStep st s).lastRendered ≠ some "default") := by
  cases st with
  | evaluate env sdk =>
      cases sdk with
      | ok r =>
          simp only [applyStep, checkAndUpdateStatus]
          repeat' split
          all_goals simp_all [render]
      | err =>
          simp only [applyStep, checkAndUpdateStatus]
          repeat' split
          all_goals simp_all [render]
  | enable env inp =>
      simp only [applyStep, handleEnableNotifications, handleEnableError]
      repeat' split
      all_goals simp_all [render]
  | subChange b =>
      cases b <;> simp [applyStep, onSubscriptionChange, render]

/-- C10 witness: an indeterminate evaluation on a confirmed subscriber
keeps the flag and renders neither `unsubscribed` nor `default`. -/
theorem C10_witness :
    (applyStep (Step.evaluate envDesktop (SdkOutcome.ok readsIndet))
        sConfirmed).confirmed = true ∧
    (applyStep (Step.evaluate envDesktop (SdkOutcome.ok readsIndet))
        sConfirmed).lastRendered ≠ some "unsubscribed" ∧
    (applyStep (Step.evaluate envDesktop (SdkOutcome.ok readsIndet))
        sConfirmed).lastRendered ≠ some "default" :=
  ⟨(C10_confirmed_monotone_unsubscribed_unreachable
      (Step.evaluate envDesktop (SdkOutcome.ok readsIndet)) sConfirmed).1 rfl,
   (C10_confirmed_monotone_unsubscribed_unreachable
      (Step.evaluate envDesktop (SdkOutcome.ok readsIndet)) sConfirmed).2.1
      (by decide),
   (C10_confirmed_monotone_unsubscribed_unreachable
      (Step.evaluate envDesktop (SdkOutcome.ok readsIndet)) sConfirmed).2.2 rfl
      (by decide)⟩

end PwaApp
